import Mathlib

/-!
# Verification of the locking-container library core

This file embeds the lock state machines, authorization policies, ordered-lock
decorator, meta-lock, and proxy "locker" of the locking-container repository
(`src/locks.hpp`, `src/lock-auth.hpp`, `src/unnamed/part_005`,
`src/unnamed/part_007`, `src/include/locks.hpp`, `src/include/object-proxy.hpp`)
as executable Lean definitions, and proves the frozen claims about them.

Modelling conventions:
* machine counters (`count_type` = `long`) are `Nat` where the code only
  increments from 0 and decrements guarded by assertions, and `Int` where a
  faithful return value of a decrement is claimed (`r_lock`);
* `pthread` mutex/condvar primitive failures are not modelled (every claim is
  about the logic, not about primitive errors);
* a lock call that would park the caller on a condition variable returns the
  `would_block` outcome together with the state the blocked caller leaves
  behind (registration retained, waiting counters updated), exactly as the
  source leaves it while waiting;
* the pointer identity of a `lock_auth` object (used for `the_writer`
  comparisons) is an `auth_id`.
-/

/-- Pointer identity of an authorization object (`const void *the_writer`). -/
abbrev auth_id := Nat

/-! ## Authorization policy: `lock_auth <rw_lock>` (src/lock-auth.hpp, lines 69-116) -/

/-- Counters of `lock_auth <rw_lock>`: multiple read locks or one write lock. -/
structure lock_auth_rw where
  reading : Nat
  writing : Nat
deriving DecidableEq, Repr

/-- `lock_auth <rw_lock>::register_auth(read, lock_out, in_use, test_auth)`
(src/lock-auth.hpp lines 88-101). `none` models returning `false` (denial);
`some a` models returning `true` with the updated counters. -/
def lock_auth_rw.register_auth (a : lock_auth_rw)
    (read lock_out in_use test_auth : Bool) : Option lock_auth_rw :=
  if a.writing != 0 && in_use then none
  else if a.reading != 0 && !read && in_use then none
  else if (a.reading != 0 || a.writing != 0) && lock_out then none
  else if test_auth then some a
  else if read then some { a with reading := a.reading + 1 }
  else some { a with writing := a.writing + 1 }

/-- `lock_auth <rw_lock>::release_auth(read)` (src/lock-auth.hpp lines 103-113).
The assertions `reading > 0` / `writing > 0` are caller obligations. -/
def lock_auth_rw.release_auth (a : lock_auth_rw) (read : Bool) : lock_auth_rw :=
  if read then { a with reading := a.reading - 1 }
  else { a with writing := a.writing - 1 }

/-! ## Generic policy interface (`lock_auth_base` virtuals) -/

/-- The virtual interface a lock uses to talk to an authorization object:
`register_auth` (with its built-in test mode) and `release_auth`. -/
structure auth_policy (α : Type) where
  register_auth : α → Bool → Bool → Bool → Bool → Option α
  release_auth : α → Bool → α

/-- The `lock_auth <rw_lock>` instance of the policy interface. -/
def rw_auth_policy : auth_policy lock_auth_rw :=
  { register_auth := lock_auth_rw.register_auth
    release_auth := lock_auth_rw.release_auth }

/-- `lock_base::register_or_test_auth` (src/locks.hpp lines 60-65): a `NULL`
authorization is always allowed; otherwise the policy decides. The outer
`Option` is the allow/deny result; the inner value is the updated auth. -/
def register_or_test_auth {α : Type} (P : auth_policy α)
    (auth : Option (auth_id × α)) (read lock_out in_use test_auth : Bool) :
    Option (Option (auth_id × α)) :=
  match auth with
  | none => some none
  | some (i, a) =>
    match P.register_auth a read lock_out in_use test_auth with
    | none => none
    | some a2 => some (some (i, a2))

/-- `lock_base::release_auth` (src/locks.hpp lines 67-69). -/
def release_auth_opt {α : Type} (P : auth_policy α)
    (auth : Option (auth_id × α)) (read : Bool) : Option (auth_id × α) :=
  match auth with
  | none => none
  | some (i, a) => some (i, P.release_auth a read)

/-! ## `rw_lock` (src/locks.hpp, lines 86-211) -/

/-- Result of a `lock_base::lock` call. `granted n` is a return value `n ≥ 0`;
`denied` is `-1`; `would_block` means the caller parks on a condition
variable (only possible with `block = true`). -/
inductive lock_outcome where
  | granted (count : Int)
  | denied
  | would_block
deriving DecidableEq, Repr

/-- State of an `rw_lock` (src/locks.hpp lines 205-210). -/
structure rw_lock where
  readers : Nat
  readers_waiting : Nat
  writer : Bool
  writer_waiting : Bool
  the_writer : Option auth_id
deriving DecidableEq, Repr

/-- A freshly constructed `rw_lock` (src/locks.hpp line 90). -/
def rw_lock.init : rw_lock :=
  { readers := 0, readers_waiting := 0, writer := false, writer_waiting := false
    the_writer := none }

/-- `bool writer_reads = auth && the_writer == auth && read;`
(src/locks.hpp line 103). -/
def rw_lock.writer_reads (s : rw_lock) (auth : Option (auth_id × α))
    (read : Bool) : Bool :=
  match auth with
  | none => false
  | some (i, _) => s.the_writer == some i && read

/-- `bool must_block = writer || writer_waiting || (!read && readers);`
(src/locks.hpp line 111). -/
def rw_lock.must_block_now (s : rw_lock) (read : Bool) : Bool :=
  s.writer || s.writer_waiting || (!read && s.readers != 0)

/-- The pointer value stored into `the_writer` for a possibly-NULL auth. -/
def opt_id {α : Type} (auth : Option (auth_id × α)) : Option auth_id :=
  match auth with
  | some (i, _) => some i
  | none => none

/-- `rw_lock::lock(auth, read, block, test)` (src/locks.hpp lines 101-169).
Returns (outcome, new lock state, new authorization). -/
def rw_lock.lock {α : Type} (P : auth_policy α) (s : rw_lock)
    (auth : Option (auth_id × α)) (read block test : Bool) :
    lock_outcome × rw_lock × Option (auth_id × α) :=
  let wr := s.writer_reads auth read
  match register_or_test_auth P auth read
      (if wr then false else s.writer_waiting)
      (if wr then false else (s.writer || s.readers != 0)) test with
  | none => (.denied, s, auth)
  | some auth1 =>
    if !wr && !block && s.must_block_now read then
      (.denied, s, if test then auth1 else release_auth_opt P auth1 read)
    else if read then
      -- read branch: `if (!writer_reads) while (writer || writer_waiting) wait;`
      if wr || (!s.writer && !s.writer_waiting) then
        (.granted (s.readers + 1), { s with readers := s.readers + 1 }, auth1)
      else
        (.would_block, { s with readers_waiting := s.readers_waiting + 1 }, auth1)
    else
      -- write branch: queue behind `writer_waiting`, then drain `writer || readers`
      if s.writer_waiting then
        (.would_block, { s with readers_waiting := s.readers_waiting + 1 }, auth1)
      else if s.writer || s.readers != 0 then
        (.would_block, { s with writer_waiting := true }, auth1)
      else
        (.granted 0,
         { s with writer := true, the_writer := opt_id auth1 },
         auth1)

/-- `rw_lock::unlock(auth, read, test)` (src/locks.hpp lines 171-196).
The assertions are caller obligations; broadcasts have no state effect. -/
def rw_lock.unlock {α : Type} (P : auth_policy α) (s : rw_lock)
    (auth : Option (auth_id × α)) (read test : Bool) :
    Int × rw_lock × Option (auth_id × α) :=
  let auth1 := if test then auth else release_auth_opt P auth read
  if read then
    ((s.readers : Int) - 1, { s with readers := s.readers - 1 }, auth1)
  else
    (0, { s with writer := false, the_writer := none }, auth1)

/-! ## Container-level acquisition (src/locking-container.hpp lines 319-357)

`get_auth` builds a write proxy, `get_auth_const` a read proxy; with no
meta-lock the proxy's constructor reduces to a single `lock` call on the
container's `rw_lock`, and the proxy is valid iff that call returned `≥ 0`. -/

/-- `get_write_auth` on an `rw_lock` container: a write acquisition. -/
def get_write_auth (s : rw_lock) (auth : Option (auth_id × lock_auth_rw))
    (block : Bool) : lock_outcome × rw_lock × Option (auth_id × lock_auth_rw) :=
  rw_lock.lock rw_auth_policy s auth false block false

/-- `get_read_auth` on an `rw_lock` container: a read acquisition. -/
def get_read_auth (s : rw_lock) (auth : Option (auth_id × lock_auth_rw))
    (block : Bool) : lock_outcome × rw_lock × Option (auth_id × lock_auth_rw) :=
  rw_lock.lock rw_auth_policy s auth true block false

/-- Validity of the returned proxy: the lock call granted. -/
def proxy_valid (r : lock_outcome × rw_lock × Option (auth_id × lock_auth_rw)) : Bool :=
  match r.1 with
  | .granted _ => true
  | _ => false

/-! ## `r_lock` (src/locks.hpp, lines 222-261) -/

/-- State of an `r_lock`: only the atomic reader counter (`std::atomic<count_type>`,
a signed `long`, hence `Int`). -/
structure r_lock where
  readers : Int
deriving DecidableEq, Repr

/-- `r_lock::lock(auth, read, block, test)` (src/locks.hpp lines 233-244).
The policy is consulted with `lock_out = false`, `in_use = false` and the
test flag hardcoded to `true`, so nothing is ever registered. -/
def r_lock.lock {α : Type} (P : auth_policy α) (s : r_lock)
    (auth : Option (auth_id × α)) (read _block _test : Bool) :
    lock_outcome × r_lock × Option (auth_id × α) :=
  if !read then (.denied, s, auth)
  else
    match register_or_test_auth P auth true false false true with
    | none => (.denied, s, auth)
    | some _ => (.granted (s.readers + 1), { readers := s.readers + 1 }, auth)

/-- `r_lock::unlock(auth, read, test)` (src/locks.hpp lines 246-253).
The authorization parameter is unused: no `release_auth` call is made. -/
def r_lock.unlock {α : Type} (_P : auth_policy α) (s : r_lock)
    (auth : Option (auth_id × α)) (read _test : Bool) :
    Int × r_lock × Option (auth_id × α) :=
  if !read then (-1, s, auth)
  else (s.readers - 1, { readers := s.readers - 1 }, auth)

/-- One call in a sequence of `r_lock` operations. -/
inductive r_lock_op where
  | lock (read block test : Bool)
  | unlock (read test : Bool)
deriving DecidableEq, Repr

/-- Run a sequence of `r_lock::lock` / `r_lock::unlock` calls with one
authorization, threading lock state and authorization state. -/
def r_lock.run (ops : List r_lock_op) (s : r_lock)
    (auth : Option (auth_id × lock_auth_rw)) :
    r_lock × Option (auth_id × lock_auth_rw) :=
  match ops with
  | [] => (s, auth)
  | .lock r b t :: rest =>
    let x := r_lock.lock rw_auth_policy s auth r b t
    r_lock.run rest x.2.1 x.2.2
  | .unlock r t :: rest =>
    let x := r_lock.unlock rw_auth_policy s auth r t
    r_lock.run rest x.2.1 x.2.2

/-! ## `w_lock` (src/locks.hpp, lines 273-338) -/

/-- State of a `w_lock` (src/locks.hpp lines 334-337). -/
structure w_lock where
  writer : Bool
  writers_waiting : Nat
deriving DecidableEq, Repr

/-- `w_lock::lock(auth, read, block, test)` (src/locks.hpp lines 287-313).
`false` is passed to the policy instead of `read` because this lock locks out
readers too; `lock_out` and `in_use` are both the `writer` flag. -/
def w_lock.lock {α : Type} (P : auth_policy α) (s : w_lock)
    (auth : Option (auth_id × α)) (_read block test : Bool) :
    lock_outcome × w_lock × Option (auth_id × α) :=
  match register_or_test_auth P auth false s.writer s.writer test with
  | none => (.denied, s, auth)
  | some auth1 =>
    if !block && s.writer then
      (.denied, s, if test then auth1 else release_auth_opt P auth1 false)
    else if s.writer then
      (.would_block, { s with writers_waiting := s.writers_waiting + 1 }, auth1)
    else
      (.granted 0, { s with writer := true }, auth1)

/-- `w_lock::unlock(auth, read, test)` (src/locks.hpp lines 315-325). -/
def w_lock.unlock {α : Type} (P : auth_policy α) (s : w_lock)
    (auth : Option (auth_id × α)) (_read test : Bool) :
    Int × w_lock × Option (auth_id × α) :=
  let auth1 := if test then auth else release_auth_opt P auth false
  (0, { s with writer := false }, auth1)

/-! ## `dumb_lock` (src/locks.hpp, lines 352-387) -/

/-- State of a `dumb_lock`: just whether the mutex is held. -/
structure dumb_lock where
  locked : Bool
deriving DecidableEq, Repr

/-- `dumb_lock::lock(auth, read, block, test)` (src/locks.hpp lines 365-372).
It cannot observe contention, so it reports `lock_out = true`, `in_use = true`
to the policy; `block` selects `pthread_mutex_lock` vs `trylock`. -/
def dumb_lock.lock {α : Type} (P : auth_policy α) (s : dumb_lock)
    (auth : Option (auth_id × α)) (_read block test : Bool) :
    lock_outcome × dumb_lock × Option (auth_id × α) :=
  match register_or_test_auth P auth false true true test with
  | none => (.denied, s, auth)
  | some auth1 =>
    if s.locked then
      if block then (.would_block, s, auth1)
      else (.denied, s, if test then auth1 else release_auth_opt P auth1 false)
    else
      (.granted 0, { locked := true }, auth1)

/-! ## `broken_lock` (src/locks.hpp, lines 397-403) -/

/-- `broken_lock::lock`: always fails, no state. -/
def broken_lock.lock {α : Type} (_P : auth_policy α)
    (auth : Option (auth_id × α)) (_read _block _test : Bool) :
    lock_outcome × Option (auth_id × α) :=
  (.denied, auth)

/-! ## `ordered_lock <Base>` (src/include/locks.hpp, lines 191-221)

The decorator is generic over the inner lock; `lock` and `unlock` refuse a
`NULL` authorization before delegating. -/

/-- An `ordered_lock <Base>`: the inner lock's state plus the fixed order. -/
structure ordered_lock (σ : Type) where
  base : σ
  order : Nat
deriving DecidableEq, Repr

/-- `ordered_lock::lock(auth, read, block, test)` (src/include/locks.hpp
lines 202-205), parameterized by the inner lock's `lock`. -/
def ordered_lock.lock {σ α : Type}
    (inner : σ → Option (auth_id × α) → Bool → Bool → Bool →
      lock_outcome × σ × Option (auth_id × α))
    (s : ordered_lock σ) (auth : Option (auth_id × α)) (read block test : Bool) :
    lock_outcome × ordered_lock σ × Option (auth_id × α) :=
  match auth with
  | none => (.denied, s, none)
  | some _ =>
    let x := inner s.base auth read block test
    (x.1, { s with base := x.2.1 }, x.2.2)

/-- `ordered_lock::unlock(auth, read, test)` (src/include/locks.hpp
lines 207-210), parameterized by the inner lock's `unlock`. -/
def ordered_lock.unlock {σ α : Type}
    (inner : σ → Option (auth_id × α) → Bool → Bool →
      Int × σ × Option (auth_id × α))
    (s : ordered_lock σ) (auth : Option (auth_id × α)) (read test : Bool) :
    Int × ordered_lock σ × Option (auth_id × α) :=
  match auth with
  | none => (-1, s, none)
  | some _ =>
    let x := inner s.base auth read test
    (x.1, { s with base := x.2.1 }, x.2.2)

/-! ## `lock_data` and the ordered authorization decorator
(src/unnamed/part_007, lines 51-76 and 350-425) -/

/-- `lock_data` (src/unnamed/part_007 lines 51-76): the request attributes a
lock hands to an authorization policy. `ident` is the lock's identity
(unused by the ordered decorator). -/
structure lock_data where
  ident : Option auth_id
  read : Bool
  order : Nat
  block : Bool
  lock_out : Bool
  must_block : Bool
deriving DecidableEq, Repr

/-- State of `lock_auth_ordered_lock <Type>` (src/unnamed/part_007 lines
350-425): the wrapped policy's state, the set of held orders
(`std::set <order_type> ordered_locks`) and the count of held unordered
locks. -/
structure lock_auth_ordered (β : Type) where
  base : β
  ordered_locks : Finset Nat
  unordered_locks : Nat

/-- `normal_rules` of `lock_auth_ordered_lock::test_auth` (src/unnamed/part_007
lines 407-408): `!l.order || unordered_locks || (ordered_locks.size() &&
*ordered_locks.rbegin() >= l.order)`; `rbegin()` of a `std::set` is its
maximum. -/
def lock_auth_ordered.normal_rules {β : Type} (s : lock_auth_ordered β)
    (order : Nat) : Bool :=
  order == 0 || s.unordered_locks != 0 ||
    (s.ordered_locks.card != 0 && decide (order ≤ (s.ordered_locks.max.getD 0)))

/-- `lock_auth_ordered_lock::test_auth(lock_data &l)` (src/unnamed/part_007
lines 404-415), parameterized by the wrapped policy's `test_auth`. When the
order rules are respected the decorator clears `lock_out` and `must_block`
in the data before consulting the wrapped policy. -/
def lock_auth_ordered.test_auth {β : Type} (baseTest : β → lock_data → Bool)
    (s : lock_auth_ordered β) (l : lock_data) : Bool :=
  let l2 := if s.normal_rules l.order then l
            else { l with lock_out := false, must_block := false }
  baseTest s.base l2

/-- Modelled from the spec: the implementation of
`lock_auth_rw_lock::test_auth(lock_data &)` declared in src/unnamed/part_007
(lines 200-206) is not under src/ (only older revisions with scalar flags
are). This follows the spec's policy table for MultiReadOneWrite, with the
table's `in_use` read from `lock_data.must_block` (the `lock_data` form the
spec adopts): deny a read if `w>0 ∧ in_use` or `(r>0 ∨ w>0) ∧ lock_out`;
deny a write additionally if `r>0 ∧ in_use`; otherwise allow. -/
def lock_auth_rw_lc_test (a : lock_auth_rw) (l : lock_data) : Bool :=
  !(a.writing != 0 && l.must_block) &&
  !(a.reading != 0 && !l.read && l.must_block) &&
  !((a.reading != 0 || a.writing != 0) && l.lock_out)

/-! ## The meta-lock (src/unnamed/part_005, lines 76-106)

`meta_lock` owns a bare `rw_lock` with no value; `get_write_auth` builds a
proxy over that lock with `read = false` and no second lock, so the proxy is
valid iff the single `lock` call on the internal `rw_lock` granted. -/

/-- `meta_lock::get_write_auth(authorization, block)` (src/unnamed/part_005
lines 93-95): an exclusive acquisition of the meta-lock's internal `rw_lock`. -/
def meta_lock_get_write_auth (s : rw_lock)
    (auth : Option (auth_id × lock_auth_rw)) (block : Bool) :
    lock_outcome × rw_lock × Option (auth_id × lock_auth_rw) :=
  rw_lock.lock rw_auth_policy s auth false block false

/-! ## The proxy's `locker` (src/include/object-proxy.hpp, lines 75-121)

The construction that names a meta-lock: first a *shared, test-mode* grant on
the meta-lock, then the real container-lock acquisition; `opt_out` is the
single release path. Both locks are `rw_lock`s here (the meta-lock's internal
lock is an `rw_lock`, and `rw_lock` is the default container lock). -/

/-- The world a locker acts on: the meta-lock state, the container-lock state,
and the caller's authorization (shared by both locks). -/
structure locker_world where
  multi : rw_lock
  locks : rw_lock
  auth : Option (auth_id × lock_auth_rw)
deriving DecidableEq, Repr

/-- The `locker`'s own fields after construction (src/include/object-proxy.hpp
lines 77-86, 111-120): whether the value pointer is non-null, the recorded
lock count, the mode, and which of `locks` / `multi` / `auth` are still set
(non-null). -/
structure locker where
  pointer : Bool
  lock_count : Int
  read : Bool
  has_locks : Bool
  has_multi : Bool
  has_auth : Bool
deriving DecidableEq, Repr

/-- An empty locker, as left by `opt_out(false, false)`:
everything nulled, nothing released. -/
def locker.empty (read : Bool) : locker :=
  { pointer := false, lock_count := 0, read := read
    has_locks := false, has_multi := false, has_auth := false }

/-- The locker constructor (src/include/object-proxy.hpp lines 79-86) for a
proxy that names a meta-lock:
`if (multi && multi->lock(auth, true, block, true) < 0) opt_out(false, false);`
`if (!locks || (lock_count = locks->lock(auth, read, block)) < 0) opt_out(false);`
`none` means one of the two calls would park the caller (construction has not
completed yet). On the second failure `opt_out(false)` releases only the
meta-lock (`multi->unlock(auth, true, true)`). -/
def locker_init (read block : Bool) (w : locker_world) :
    Option (locker × locker_world) :=
  match rw_lock.lock rw_auth_policy w.multi w.auth true block true with
  | (.would_block, _, _) => none
  | (.denied, m1, a1) =>
    -- opt_out(false, false), then the second `if` sees locks == NULL and
    -- calls opt_out(false) with multi already NULL: no release happens
    some (locker.empty read, { w with multi := m1, auth := a1 })
  | (.granted _, m1, a1) =>
    match rw_lock.lock rw_auth_policy w.locks a1 read block false with
    | (.would_block, _, _) => none
    | (.denied, l2, a2) =>
      -- opt_out(false): unlock1 = false, unlock2 = true → release the meta-lock
      let x := rw_lock.unlock rw_auth_policy m1 a2 true true
      some (locker.empty read, { multi := x.2.1, locks := l2, auth := x.2.2 })
    | (.granted n, l2, a2) =>
      some ({ pointer := true, lock_count := n, read := read
              has_locks := true, has_multi := true, has_auth := true },
            { multi := m1, locks := l2, auth := a2 })

/-- First half of `opt_out(true)` (src/include/object-proxy.hpp lines 97-105):
`if (unlock1 && locks) locks->unlock(auth, read);` — the container lock is
released first. -/
def locker_destroy_stage1 (lk : locker) (w : locker_world) : locker_world :=
  if lk.has_locks then
    let x := rw_lock.unlock rw_auth_policy w.locks w.auth lk.read false
    { w with locks := x.2.1, auth := x.2.2 }
  else w

/-- Second half of `opt_out(true)`:
`if (unlock2 && multi) multi->unlock(auth, true, true);` — the meta-lock is
released after the container lock, in test mode. -/
def locker_destroy_stage2 (lk : locker) (w : locker_world) : locker_world :=
  if lk.has_multi then
    let x := rw_lock.unlock rw_auth_policy w.multi w.auth true true
    { w with multi := x.2.1, auth := x.2.2 }
  else w

/-- Last-copy destruction or `clear()` of the proxy: `opt_out(true)`, which
releases the container lock and then the meta-lock. -/
def locker_destroy (lk : locker) (w : locker_world) : locker_world :=
  locker_destroy_stage2 lk (locker_destroy_stage1 lk w)

/-! ## Concurrent step relation for `rw_lock` (src/locks.hpp, lines 101-196)

For the reachability invariant (claim about all interleavings) the lock is
modelled as a transition system: each constructor is one atomic state change
performed under `master_lock`. A ghost field `read_holders` records, for each
outstanding shared grant, the identity of the authorization that took it
(the code does not store this; it is the attribution the claim speaks of).
Wait-queue bookkeeping (`readers_waiting` increments around the condvar
waits) is included; authorization-policy decisions do not change lock state
and are omitted from the transition system. -/

/-- `rw_lock` state extended with the ghost attribution of shared grants. -/
structure rw_ghost where
  readers : Nat
  readers_waiting : Nat
  writer : Bool
  writer_waiting : Bool
  the_writer : Option auth_id
  read_holders : List auth_id
deriving DecidableEq, Repr

/-- The initial `rw_lock` state (constructor, src/locks.hpp line 90). -/
def rw_ghost.init : rw_ghost :=
  { readers := 0, readers_waiting := 0, writer := false, writer_waiting := false
    the_writer := none, read_holders := [] }

/-- One atomic transition of `rw_lock::lock` / `rw_lock::unlock` under
`master_lock` (src/locks.hpp lines 101-196). -/
inductive rw_step : rw_ghost → rw_ghost → Prop
  /-- A reader completes `++readers` after finding
  `!(writer || writer_waiting)` (src/locks.hpp lines 124, 133). -/
  | read_grant_normal (a : auth_id) (s : rw_ghost)
      (hw : s.writer = false) (hww : s.writer_waiting = false) :
      rw_step s { s with readers := s.readers + 1, read_holders := a :: s.read_holders }
  /-- The current writer takes a shared grant: `writer_reads` skips the wait
  loop entirely (src/locks.hpp lines 103, 124, 133). -/
  | read_grant_writer (a : auth_id) (s : rw_ghost)
      (hw : s.the_writer = some a) :
      rw_step s { s with readers := s.readers + 1, read_holders := a :: s.read_holders }
  /-- A thread starts waiting on a condition variable:
  `++readers_waiting` (src/locks.hpp lines 120, 140). -/
  | wait_inc (s : rw_ghost) :
      rw_step s { s with readers_waiting := s.readers_waiting + 1 }
  /-- A waiting thread gives up or proceeds: `--readers_waiting`
  (src/locks.hpp lines 127, 132, 147, 152). -/
  | wait_dec (s : rw_ghost) (h : s.readers_waiting ≠ 0) :
      rw_step s { s with readers_waiting := s.readers_waiting - 1 }
  /-- A writer gets to the head of the line: `writer_waiting = true` after
  exiting `while (writer_waiting)` (src/locks.hpp lines 142-153). -/
  | writer_wait_begin (s : rw_ghost) (h : s.writer_waiting = false) :
      rw_step s { s with writer_waiting := true }
  /-- The queued writer aborts on a condvar error: `writer_waiting = false`
  (src/locks.hpp line 158). -/
  | writer_wait_abort (s : rw_ghost) (h : s.writer_waiting = true) :
      rw_step s { s with writer_waiting := false }
  /-- The queued writer completes after `while (writer || readers)` exits:
  `writer_waiting = false; writer = true; the_writer = auth;`
  (src/locks.hpp lines 155-165). -/
  | write_grant (a : auth_id) (s : rw_ghost)
      (hq : s.writer_waiting = true) (hw : s.writer = false) (hr : s.readers = 0) :
      rw_step s { s with writer_waiting := false, writer := true, the_writer := some a }
  /-- A shared holder releases: `--readers` (src/locks.hpp lines 174-181). -/
  | read_release (a : auth_id) (s : rw_ghost) (h : a ∈ s.read_holders) :
      rw_step s { s with readers := s.readers - 1
                         read_holders := s.read_holders.erase a }
  /-- The writer releases: `writer = false; the_writer = NULL;`
  (src/locks.hpp lines 183-194; the code asserts `the_writer == auth`). -/
  | write_release (a : auth_id) (s : rw_ghost) (h : s.the_writer = some a) :
      rw_step s { s with writer := false, the_writer := none }

/-- States of an `rw_lock` reachable from construction by any interleaving of
lock/unlock steps. -/
inductive rw_reachable : rw_ghost → Prop
  | init : rw_reachable rw_ghost.init
  | step {s t : rw_ghost} : rw_reachable s → rw_step s t → rw_reachable t

/-! ## Helper lemmas about the rw policy -/

/-- Characterization of denial by `lock_auth <rw_lock>::register_auth`. -/
theorem register_auth_eq_none_iff (a : lock_auth_rw) (read lock_out in_use t : Bool) :
    lock_auth_rw.register_auth a read lock_out in_use t = none ↔
      ((a.writing ≠ 0 ∧ in_use = true) ∨
       (a.reading ≠ 0 ∧ read = false ∧ in_use = true) ∨
       ((a.reading ≠ 0 ∨ a.writing ≠ 0) ∧ lock_out = true)) := by
  unfold lock_auth_rw.register_auth
  rcases read with _ | _ <;> rcases lock_out with _ | _ <;> rcases in_use with _ | _ <;>
    rcases t with _ | _ <;>
    by_cases hw : a.writing = 0 <;> by_cases hr : a.reading = 0 <;>
    simp [hw, hr]

/-- Registration followed by release restores the counters. -/
theorem register_release_id (a a2 : lock_auth_rw) (read lock_out in_use : Bool)
    (h : lock_auth_rw.register_auth a read lock_out in_use false = some a2) :
    lock_auth_rw.release_auth a2 read = a := by
  unfold lock_auth_rw.register_auth at h
  by_cases h1 : (a.writing != 0 && in_use) = true
  · simp [h1] at h
  · by_cases h2 : (a.reading != 0 && !read && in_use) = true
    · simp [h1, h2] at h
    · by_cases h3 : ((a.reading != 0 || a.writing != 0) && lock_out) = true
      · simp [h1, h2, h3] at h
      · rcases read with _ | _ <;> simp [h1, h2, h3] at h <;>
          simp [lock_auth_rw.release_auth, ← h]

/-- Test-mode registration never changes the counters. -/
theorem register_test_id (a a2 : lock_auth_rw) (read lock_out in_use : Bool)
    (h : lock_auth_rw.register_auth a read lock_out in_use true = some a2) :
    a2 = a := by
  unfold lock_auth_rw.register_auth at h
  by_cases h1 : (a.writing != 0 && in_use) = true
  · simp [h1] at h
  · by_cases h2 : (a.reading != 0 && !read && in_use) = true
    · simp [h1, h2] at h
    · by_cases h3 : ((a.reading != 0 || a.writing != 0) && lock_out) = true
      · simp [h1, h2, h3] at h
      · simp [h1, h2, h3] at h
        exact h.symm

/-- Lifted round-trip: a non-test registration that succeeds is undone exactly
by `release_auth` (rw policy, `NULL` auth included). -/
theorem register_or_test_release_id (auth auth1 : Option (auth_id × lock_auth_rw))
    (read lock_out in_use : Bool)
    (h : register_or_test_auth rw_auth_policy auth read lock_out in_use false = some auth1) :
    release_auth_opt rw_auth_policy auth1 read = auth := by
  match auth with
  | none =>
    simp [register_or_test_auth] at h
    simp [← h, release_auth_opt]
  | some (i, a) =>
    simp only [register_or_test_auth, rw_auth_policy] at h
    match ha : lock_auth_rw.register_auth a read lock_out in_use false with
    | none => rw [ha] at h; exact absurd h (by simp)
    | some a2 =>
      rw [ha] at h
      simp at h
      simp [← h, release_auth_opt, rw_auth_policy, register_release_id a a2 read lock_out in_use ha]

/-- Lifted test-mode registration: the authorization is returned unchanged
(rw policy). -/
theorem register_or_test_test_id (auth auth1 : Option (auth_id × lock_auth_rw))
    (read lock_out in_use : Bool)
    (h : register_or_test_auth rw_auth_policy auth read lock_out in_use true = some auth1) :
    auth1 = auth := by
  match auth with
  | none => simp [register_or_test_auth] at h; exact h.symm
  | some (i, a) =>
    simp only [register_or_test_auth, rw_auth_policy] at h
    match ha : lock_auth_rw.register_auth a read lock_out in_use true with
    | none => rw [ha] at h; exact absurd h (by simp)
    | some a2 =>
      rw [ha] at h
      simp at h
      rw [← h, register_test_id a a2 read lock_out in_use ha]

/-- Frame property: a denied `rw_lock::lock` call leaves the lock state and
the authorization exactly as they were (rw policy). -/
theorem rw_lock_deny_frame (s : rw_lock) (auth : Option (auth_id × lock_auth_rw))
    (read block test : Bool)
    (h : (rw_lock.lock rw_auth_policy s auth read block test).1 = .denied) :
    (rw_lock.lock rw_auth_policy s auth read block test).2 = (s, auth) := by
  rcases hreg : register_or_test_auth rw_auth_policy auth read
      (if s.writer_reads auth read = true then false else s.writer_waiting)
      (if s.writer_reads auth read = true then false else (s.writer || s.readers != 0)) test
    with _ | auth1
  · simp only [rw_lock.lock, hreg]
  · by_cases hb : (!s.writer_reads auth read && !block && s.must_block_now read) = true
    · rcases test with _ | _
      · simp only [rw_lock.lock, hreg, hb, if_true, Bool.false_eq_true, if_false]
        exact Prod.ext rfl (register_or_test_release_id _ _ _ _ _ hreg)
      · simp only [rw_lock.lock, hreg, hb, if_true]
        exact Prod.ext rfl (register_or_test_test_id _ _ _ _ _ hreg)
    · exfalso
      simp only [rw_lock.lock, hreg, hb, if_false] at h
      repeat' split at h
      all_goals simp_all

/-- Inversion of a granted shared acquisition: the only state change is
`++readers`, the returned count is the new reader count, and the
authorization returned is whatever registration produced. -/
theorem rw_lock_read_grant_inv (s : rw_lock) (auth : Option (auth_id × lock_auth_rw))
    (block test : Bool) (n : Int) (s2 : rw_lock) (a2 : Option (auth_id × lock_auth_rw))
    (h : rw_lock.lock rw_auth_policy s auth true block test = (.granted n, s2, a2)) :
    s2 = { s with readers := s.readers + 1 } ∧ n = (s.readers : Int) + 1 ∧
      ∃ lo iu, register_or_test_auth rw_auth_policy auth true lo iu test = some a2 := by
  rcases hreg : register_or_test_auth rw_auth_policy auth true
      (if s.writer_reads auth true = true then false else s.writer_waiting)
      (if s.writer_reads auth true = true then false else (s.writer || s.readers != 0)) test
    with _ | auth1
  · simp only [rw_lock.lock, hreg] at h
    exact absurd h (by simp)
  · simp only [rw_lock.lock, hreg, if_true] at h
    split at h
    · exact absurd h (by simp)
    · split at h
      · simp only [Prod.mk.injEq, lock_outcome.granted.injEq] at h
        exact ⟨h.2.1.symm, h.1.symm,
          (if s.writer_reads auth true = true then false else s.writer_waiting),
          (if s.writer_reads auth true = true then false else (s.writer || s.readers != 0)),
          by rw [hreg, h.2.2]⟩
      · exact absurd h (by simp)

/-- Inversion of a granted exclusive acquisition: it can only happen from a
state with no writer, no queued writer and no readers, and the only change is
`writer = true; the_writer = auth`. -/
theorem rw_lock_write_grant_inv (s : rw_lock) (auth : Option (auth_id × lock_auth_rw))
    (block test : Bool) (n : Int) (s2 : rw_lock) (a2 : Option (auth_id × lock_auth_rw))
    (h : rw_lock.lock rw_auth_policy s auth false block test = (.granted n, s2, a2)) :
    s.writer = false ∧ s.writer_waiting = false ∧ s.readers = 0 ∧
      s2 = { s with writer := true, the_writer := opt_id a2 } ∧
      ∃ lo iu, register_or_test_auth rw_auth_policy auth false lo iu test = some a2 := by
  rcases hreg : register_or_test_auth rw_auth_policy auth false
      (if s.writer_reads auth false = true then false else s.writer_waiting)
      (if s.writer_reads auth false = true then false else (s.writer || s.readers != 0)) test
    with _ | auth1
  · simp only [rw_lock.lock, hreg] at h
    exact absurd h (by simp)
  · simp only [rw_lock.lock, hreg, Bool.false_eq_true, if_false] at h
    split at h
    · exact absurd h (by simp)
    · split at h
      · exact absurd h (by simp)
      · split at h
        · exact absurd h (by simp)
        · rename_i hww hwr2
          simp only [Prod.mk.injEq, lock_outcome.granted.injEq] at h
          simp only [Bool.not_eq_true, Bool.or_eq_false_iff, bne_eq_false_iff_eq] at hwr2
          refine ⟨hwr2.1, by simpa using hww, hwr2.2, ?_, ?_⟩
          · rw [← h.2.1, h.2.2]
          · exact ⟨(if s.writer_reads auth false = true then false else s.writer_waiting),
              (if s.writer_reads auth false = true then false else (s.writer || s.readers != 0)),
              by rw [hreg, h.2.2]⟩

/-- C1: For a `SharedExclusive` (`rw_lock`) lock whose exclusive lock is held
by authorization A (`the_writer == A`), a shared acquisition by A is granted
without blocking: the policy is consulted with `lock_out = false` and
`in_use = false` instead of the real `writer_waiting` / `(writer || readers)`
values, the read wait loop is skipped, the reader count is incremented and
A's `reading` counter is incremented — regardless of the `block` flag.
Consequently `w = get_write_auth(auth); r = get_read_auth(auth)` on one
container leaves both proxies valid with `writing == 1` and `reading == 1`. -/
theorem C1_writer_reads_exception :
    (∀ (s : rw_lock) (i : auth_id) (a : lock_auth_rw) (block : Bool),
      s.the_writer = some i →
      rw_lock.lock rw_auth_policy s (some (i, a)) true block false =
        (.granted ((s.readers : Int) + 1), { s with readers := s.readers + 1 },
         some (i, { a with reading := a.reading + 1 }))) ∧
    get_write_auth rw_lock.init (some (7, ⟨0, 0⟩)) true =
      (.granted 0, ⟨0, 0, true, false, some 7⟩, some (7, ⟨0, 1⟩)) ∧
    get_read_auth ⟨0, 0, true, false, some 7⟩ (some (7, ⟨0, 1⟩)) true =
      (.granted 1, ⟨1, 0, true, false, some 7⟩, some (7, ⟨1, 1⟩)) := by
  refine ⟨?_, by decide, by decide⟩
  intro s i a block h
  simp [rw_lock.lock, rw_lock.writer_reads, h, register_or_test_auth, rw_auth_policy,
    lock_auth_rw.register_auth]

/-- Witness for C1: the general writer-reads part applied at a concrete held
state. -/
theorem C1_writer_reads_exception_witness :
    rw_lock.lock rw_auth_policy ⟨0, 0, true, false, some 3⟩ (some (3, ⟨0, 1⟩)) true true false =
      (.granted 1, ⟨1, 0, true, false, some 3⟩, some (3, ⟨1, 1⟩)) :=
  C1_writer_reads_exception.1 ⟨0, 0, true, false, some 3⟩ 3 ⟨0, 1⟩ true rfl

/-- C2: the multi-read-one-write policy over holdings `{reading r, writing w}`
denies a read registration iff `(w>0 ∧ in_use) ∨ ((r>0 ∨ w>0) ∧ lock_out)`,
denies a write registration iff
`(w>0 ∧ in_use) ∨ (r>0 ∧ in_use) ∨ ((r>0 ∨ w>0) ∧ lock_out)`, and otherwise
grants, incrementing the matching counter. For a `SharedExclusive` container
and one fresh authorization, `get_read_auth` then `get_write_auth` yields a
valid read proxy and an empty (denied) write proxy. -/
theorem C2_multi_read_one_write_policy :
    (∀ (a : lock_auth_rw) (lock_out in_use : Bool),
      (lock_auth_rw.register_auth a true lock_out in_use false = none ↔
        ((0 < a.writing ∧ in_use = true) ∨
         ((0 < a.reading ∨ 0 < a.writing) ∧ lock_out = true))) ∧
      (lock_auth_rw.register_auth a false lock_out in_use false = none ↔
        ((0 < a.writing ∧ in_use = true) ∨ (0 < a.reading ∧ in_use = true) ∨
         ((0 < a.reading ∨ 0 < a.writing) ∧ lock_out = true))) ∧
      (lock_auth_rw.register_auth a true lock_out in_use false ≠ none →
        lock_auth_rw.register_auth a true lock_out in_use false =
          some { a with reading := a.reading + 1 }) ∧
      (lock_auth_rw.register_auth a false lock_out in_use false ≠ none →
        lock_auth_rw.register_auth a false lock_out in_use false =
          some { a with writing := a.writing + 1 })) ∧
    get_read_auth rw_lock.init (some (0, ⟨0, 0⟩)) true =
      (.granted 1, ⟨1, 0, false, false, none⟩, some (0, ⟨1, 0⟩)) ∧
    get_write_auth ⟨1, 0, false, false, none⟩ (some (0, ⟨1, 0⟩)) true =
      (.denied, ⟨1, 0, false, false, none⟩, some (0, ⟨1, 0⟩)) := by
  refine ⟨?_, by decide, by decide⟩
  intro a lock_out in_use
  refine ⟨?_, ?_, ?_, ?_⟩
  · rw [register_auth_eq_none_iff]
    simp [Nat.pos_iff_ne_zero]
  · rw [register_auth_eq_none_iff]
    simp [Nat.pos_iff_ne_zero]
  · intro h
    unfold lock_auth_rw.register_auth at h ⊢
    by_cases h1 : (a.writing != 0 && in_use) = true
    · simp [h1] at h
    · by_cases h3 : ((a.reading != 0 || a.writing != 0) && lock_out) = true
      · simp [h1, h3] at h
      · simp [h1, h3]
  · intro h
    unfold lock_auth_rw.register_auth at h ⊢
    by_cases h1 : (a.writing != 0 && in_use) = true
    · simp [h1] at h
    · by_cases h2 : (a.reading != 0 && in_use) = true
      · simp [h1, h2] at h
      · by_cases h3 : ((a.reading != 0 || a.writing != 0) && lock_out) = true
        · simp [h1, h2, h3] at h
        · simp [h1, h2, h3]

/-- Witness for C2: the grant parts applied at concrete holdings. -/
theorem C2_multi_read_one_write_policy_witness :
    lock_auth_rw.register_auth ⟨0, 0⟩ true false false false = some ⟨1, 0⟩ ∧
    lock_auth_rw.register_auth ⟨0, 3⟩ false false false false = some ⟨0, 4⟩ :=
  ⟨(C2_multi_read_one_write_policy.1 ⟨0, 0⟩ false false).2.2.1 (by decide),
   (C2_multi_read_one_write_policy.1 ⟨0, 3⟩ false false).2.2.2 (by decide)⟩

/-- C4: a non-blocking lock call on a state whose blocking condition holds
(for `rw_lock`: `writer || writer_waiting || (!read && readers)`, excluding
the writer-reads case; for `w_lock`: `writer`; for `dumb_lock`: the mutex is
held) returns denied, rolls back the registration it just made, and leaves
the lock state and the authorization counters exactly as before the call
(`r_lock` never blocks and `broken_lock` always denies without state). -/
theorem C4_nonblocking_denial_frame :
    (∀ (s : rw_lock) (auth : Option (auth_id × lock_auth_rw)) (read test : Bool),
      rw_lock.writer_reads s auth read = false →
      s.must_block_now read = true →
      rw_lock.lock rw_auth_policy s auth read false test = (.denied, s, auth)) ∧
    (∀ (s : w_lock) (auth : Option (auth_id × lock_auth_rw)) (read test : Bool),
      s.writer = true →
      w_lock.lock rw_auth_policy s auth read false test = (.denied, s, auth)) ∧
    (∀ (s : dumb_lock) (auth : Option (auth_id × lock_auth_rw)) (read test : Bool),
      s.locked = true →
      dumb_lock.lock rw_auth_policy s auth read false test = (.denied, s, auth)) := by
  refine ⟨?_, ?_, ?_⟩
  · intro s auth read test hwr hmb
    rcases hreg : register_or_test_auth rw_auth_policy auth read
        (if s.writer_reads auth read = true then false else s.writer_waiting)
        (if s.writer_reads auth read = true then false else (s.writer || s.readers != 0)) test
      with _ | auth1
    · simp only [rw_lock.lock, hreg]
    · have hcond : (!s.writer_reads auth read && !false && s.must_block_now read) = true := by
        rw [hwr, hmb]; rfl
      rcases test with _ | _
      · simp only [rw_lock.lock, hreg, hcond, if_true, Bool.false_eq_true, if_false]
        rw [register_or_test_release_id _ _ _ _ _ hreg]
      · simp only [rw_lock.lock, hreg, hcond, if_true]
        rw [register_or_test_test_id _ _ _ _ _ hreg]
  · intro s auth read test hw
    rcases hreg : register_or_test_auth rw_auth_policy auth false s.writer s.writer test
      with _ | auth1
    · simp only [w_lock.lock, hreg]
    · have hcond : (!false && s.writer) = true := by rw [hw]; rfl
      rcases test with _ | _
      · simp only [w_lock.lock, hreg, hcond, if_true, Bool.false_eq_true, if_false]
        rw [register_or_test_release_id _ _ _ _ _ hreg]
      · simp only [w_lock.lock, hreg, hcond, if_true]
        rw [register_or_test_test_id _ _ _ _ _ hreg]
  · intro s auth read test hl
    rcases hreg : register_or_test_auth rw_auth_policy auth false true true test
      with _ | auth1
    · simp only [dumb_lock.lock, hreg]
    · rcases test with _ | _
      · simp only [dumb_lock.lock, hreg, hl, if_true, Bool.false_eq_true, if_false]
        rw [register_or_test_release_id _ _ _ _ _ hreg]
      · simp only [dumb_lock.lock, hreg, hl, if_true, Bool.false_eq_true, if_false]
        rw [register_or_test_test_id _ _ _ _ _ hreg]

/-- Witness for C4: all three parts applied at concretely contended states. -/
theorem C4_nonblocking_denial_frame_witness :
    rw_lock.lock rw_auth_policy ⟨0, 0, false, true, none⟩ (some (0, ⟨0, 0⟩)) true false false =
      (.denied, ⟨0, 0, false, true, none⟩, some (0, ⟨0, 0⟩)) ∧
    w_lock.lock rw_auth_policy ⟨true, 0⟩ (some (0, ⟨0, 0⟩)) false false false =
      (.denied, ⟨true, 0⟩, some (0, ⟨0, 0⟩)) ∧
    dumb_lock.lock rw_auth_policy ⟨true⟩ (some (0, ⟨0, 0⟩)) false false false =
      (.denied, ⟨true⟩, some (0, ⟨0, 0⟩)) :=
  ⟨C4_nonblocking_denial_frame.1 ⟨0, 0, false, true, none⟩ (some (0, ⟨0, 0⟩)) true false
     (by decide) (by decide),
   C4_nonblocking_denial_frame.2.1 ⟨true, 0⟩ (some (0, ⟨0, 0⟩)) false false rfl,
   C4_nonblocking_denial_frame.2.2 ⟨true⟩ (some (0, ⟨0, 0⟩)) false false rfl⟩

/-- C5 counterexample: the claim says a meta-exclusive acquisition by an
authorization that holds any lock is denied *regardless of the meta-lock's
own state*. On a completely idle meta-lock it is in fact granted (the
"no other locks on this container" exception of the policy): here the
authorization holds one read lock (`reading = 1`) and the exclusive
meta acquisition succeeds. -/
theorem C5_counterexample_idle_meta_granted :
    meta_lock_get_write_auth rw_lock.init (some (0, ⟨1, 0⟩)) true =
      (.granted 0, ⟨0, 0, true, false, some 0⟩, some (0, ⟨1, 1⟩)) := by decide

/-- C5 (amended): a meta-exclusive acquisition by an authorization that holds
at least one lock is denied by the policy — with lock state and counters

untouched — whenever the meta-lock is in use (a writer or any shared holder)
or locked out (a queued writer); when the meta-lock is completely idle the
acquisition is granted (the policy's idle-container exception). -/
theorem C5_meta_exclusive_while_holding :
    (∀ (s : rw_lock) (i : auth_id) (a : lock_auth_rw) (block : Bool),
      0 < a.reading + a.writing →
      (s.writer = true ∨ s.readers ≠ 0 ∨ s.writer_waiting = true) →
      meta_lock_get_write_auth s (some (i, a)) block = (.denied, s, some (i, a))) ∧
    (∀ (s : rw_lock) (i : auth_id) (a : lock_auth_rw) (block : Bool),
      s.writer = false → s.readers = 0 → s.writer_waiting = false →
      meta_lock_get_write_auth s (some (i, a)) block =
        (.granted 0, { s with writer := true, the_writer := some i },
         some (i, { a with writing := a.writing + 1 }))) := by
  constructor
  · intro s i a block hpos hact
    have hwr : rw_lock.writer_reads s (some (i, a)) false = false := by
      simp [rw_lock.writer_reads]
    have hden : lock_auth_rw.register_auth a false s.writer_waiting
        (s.writer || s.readers != 0) false = none := by
      rw [register_auth_eq_none_iff]
      have hrw : a.reading ≠ 0 ∨ a.writing ≠ 0 := by omega
      rcases hact with hw | hr | hww
      · have hiu : (s.writer || s.readers != 0) = true := by simp [hw]
        rcases hrw with h1 | h2
        · exact Or.inr (Or.inl ⟨h1, rfl, hiu⟩)
        · exact Or.inl ⟨h2, hiu⟩
      · have hiu : (s.writer || s.readers != 0) = true := by simp [hr]
        rcases hrw with h1 | h2
        · exact Or.inr (Or.inl ⟨h1, rfl, hiu⟩)
        · exact Or.inl ⟨h2, hiu⟩
      · exact Or.inr (Or.inr ⟨hrw, hww⟩)
    simp [meta_lock_get_write_auth, rw_lock.lock, hwr, register_or_test_auth,
      rw_auth_policy, hden]
  · intro s i a block hw hr hww
    simp [meta_lock_get_write_auth, rw_lock.lock, rw_lock.writer_reads, hw, hr, hww,
      register_or_test_auth, rw_auth_policy, lock_auth_rw.register_auth,
      rw_lock.must_block_now, opt_id]

/-- Witness for C5 (amended): both parts at concrete states — a meta-lock
with one outstanding share denies, an idle meta-lock grants. -/
theorem C5_meta_exclusive_while_holding_witness :
    meta_lock_get_write_auth ⟨1, 0, false, false, none⟩ (some (2, ⟨1, 0⟩)) true =
      (.denied, ⟨1, 0, false, false, none⟩, some (2, ⟨1, 0⟩)) ∧
    meta_lock_get_write_auth rw_lock.init (some (2, ⟨1, 0⟩)) true =
      (.granted 0, ⟨0, 0, true, false, some 2⟩, some (2, ⟨1, 1⟩)) :=
  ⟨C5_meta_exclusive_while_holding.1 ⟨1, 0, false, false, none⟩ 2 ⟨1, 0⟩ true
     (by decide) (Or.inr (Or.inl (by decide))),
   C5_meta_exclusive_while_holding.2 rw_lock.init 2 ⟨1, 0⟩ true rfl rfl rfl⟩

/-- C7: the claim (and the class's own doc comment in src/lock-auth.hpp,
"2) if the call isn't blocking and it's for a write lock") says a
non-blocking write registration succeeds even when the authorization holds a
read lock. The current `register_auth` does not receive the blocking flag at
all and denies: at `reading = 1, writing = 0` with the container in use, the
registration returns false, and the end-to-end non-blocking `get_write_auth`
on the container holding that single read lock returns denied. -/
theorem C7_nonblocking_write_exception_missing :
    lock_auth_rw.register_auth ⟨1, 0⟩ false false true false = none ∧
    rw_lock.lock rw_auth_policy ⟨1, 0, false, false, none⟩ (some (5, ⟨1, 0⟩)) false false false =
      (.denied, ⟨1, 0, false, false, none⟩, some (5, ⟨1, 0⟩)) := by decide

/-- C9: `ordered_lock` refuses release (and acquisition) without an
authorization: `unlock` with a null authorization returns `-1` and does not
delegate to the inner lock — for every inner lock implementation the inner
state is untouched. -/
theorem C9_ordered_lock_unlock_requires_auth :
    ∀ (σ α : Type)
      (innerLock : σ → Option (auth_id × α) → Bool → Bool → Bool →
        lock_outcome × σ × Option (auth_id × α))
      (innerUnlock : σ → Option (auth_id × α) → Bool → Bool →
        Int × σ × Option (auth_id × α))
      (s : ordered_lock σ) (read block test : Bool),
      ordered_lock.unlock innerUnlock s none read test = (-1, s, none) ∧
      ordered_lock.lock innerLock s none read block test = (.denied, s, none) := by
  intro σ α il iu s read block test
  exact ⟨rfl, rfl⟩

/-- Helper for C10: a single `r_lock::lock` call returns the authorization
it was given, untouched. -/
theorem r_lock_lock_auth_eq (s : r_lock) (auth : Option (auth_id × lock_auth_rw))
    (read block test : Bool) :
    (r_lock.lock rw_auth_policy s auth read block test).2.2 = auth := by
  unfold r_lock.lock
  split
  · rfl
  · split <;> rfl

/-- Helper for C10: a single `r_lock::unlock` call returns the authorization
it was given, untouched. -/
theorem r_lock_unlock_auth_eq (s : r_lock) (auth : Option (auth_id × lock_auth_rw))
    (read test : Bool) :
    (r_lock.unlock rw_auth_policy s auth read test).2.2 = auth := by
  unfold r_lock.unlock
  split <;> rfl

/-- C10: `r_lock` consults the rw policy in test-only mode and never
registers or releases, so the authorization's `reading`/`writing` counters
are unchanged by every single call and by every sequence of `r_lock`
lock/unlock calls, while the lock's atomic reader count is incremented by
each successful (read) lock and decremented by each (read) unlock. -/
theorem C10_r_lock_auth_frame :
    (∀ (s : r_lock) (auth : Option (auth_id × lock_auth_rw)) (read block test : Bool),
      (r_lock.lock rw_auth_policy s auth read block test).2.2 = auth ∧
      (r_lock.unlock rw_auth_policy s auth read test).2.2 = auth) ∧
    (∀ (s : r_lock) (auth : Option (auth_id × lock_auth_rw)) (block test : Bool),
      r_lock.lock rw_auth_policy s auth true block test =
        (.granted (s.readers + 1), ⟨s.readers + 1⟩, auth) ∧
      r_lock.unlock rw_auth_policy s auth true test =
        (s.readers - 1, ⟨s.readers - 1⟩, auth)) ∧
    (∀ (ops : List r_lock_op) (s : r_lock) (auth : Option (auth_id × lock_auth_rw)),
      (r_lock.run ops s auth).2 = auth) := by
  refine ⟨?_, ?_, ?_⟩
  · intro s auth read block test
    exact ⟨r_lock_lock_auth_eq s auth read block test, r_lock_unlock_auth_eq s auth read test⟩
  · intro s auth block test
    constructor
    · rcases auth with _ | ⟨i, a⟩
      · simp [r_lock.lock, register_or_test_auth]
      · simp [r_lock.lock, register_or_test_auth, rw_auth_policy, lock_auth_rw.register_auth]
    · simp [r_lock.unlock]
  · intro ops
    induction ops with
    | nil => intro s auth; rfl
    | cons op rest ih =>
      intro s auth
      rcases op with ⟨r, b, t⟩ | ⟨r, t⟩
      · rw [r_lock.run]
        rw [r_lock_lock_auth_eq s auth r b t]
        exact ih _ _
      · rw [r_lock.run]
        rw [r_lock_unlock_auth_eq s auth r t]
        exact ih _ _

/-- C3: the ordered decorator around policy P. An acquisition with order
`o > 0`, made while no unordered locks are held and every held order is
strictly below `o`, has `lock_out` and `must_block` forced to `false` before
P is consulted — so with the MultiReadOneWrite base (modelled from the spec)
it is granted even if the lock is in use by other threads. An acquisition
whose order is not strictly greater than the maximum held order, or made
while unordered locks are held, is decided by P's predicate on the original,
unmodified data. -/
theorem C3_ordered_relaxation :
    (∀ (β : Type) (baseTest : β → lock_data → Bool)
       (st : lock_auth_ordered β) (l : lock_data),
      l.order ≠ 0 → st.unordered_locks = 0 →
      (∀ o ∈ st.ordered_locks, o < l.order) →
      lock_auth_ordered.test_auth baseTest st l =
        baseTest st.base { l with lock_out := false, must_block := false }) ∧
    (∀ (β : Type) (baseTest : β → lock_data → Bool)
       (st : lock_auth_ordered β) (l : lock_data),
      l.order ≠ 0 →
      (st.unordered_locks ≠ 0 ∨ ∃ o ∈ st.ordered_locks, l.order ≤ o) →
      lock_auth_ordered.test_auth baseTest st l = baseTest st.base l) ∧
    (∀ (a : lock_auth_rw) (l : lock_data),
      lock_auth_rw_lc_test a { l with lock_out := false, must_block := false } = true) := by
  refine ⟨?_, ?_, ?_⟩
  · intro β baseTest st l horder hunord hall
    have hnr : st.normal_rules l.order = false := by
      rcases Finset.eq_empty_or_nonempty st.ordered_locks with he | hne
      · simp [lock_auth_ordered.normal_rules, horder, hunord, he]
      · have hlt : st.ordered_locks.max' hne < l.order :=
          hall _ (Finset.max'_mem _ hne)
        have hmax : st.ordered_locks.max.getD 0 = st.ordered_locks.max' hne := by
          rw [← Finset.coe_max' hne]; rfl
        simp [lock_auth_ordered.normal_rules, horder, hunord, hmax, not_le.mpr hlt]
    simp [lock_auth_ordered.test_auth, hnr]
  · intro β baseTest st l horder hdisj
    have hnr : st.normal_rules l.order = true := by
      rcases hdisj with hu | ⟨o, ho, hle⟩
      · simp [lock_auth_ordered.normal_rules, hu]
      · have hne : st.ordered_locks.Nonempty := ⟨o, ho⟩
        have hmax : st.ordered_locks.max.getD 0 = st.ordered_locks.max' hne := by
          rw [← Finset.coe_max' hne]; rfl
        have hcard : st.ordered_locks.card ≠ 0 := Finset.card_ne_zero.mpr hne
        have hle2 : l.order ≤ st.ordered_locks.max' hne :=
          le_trans hle (Finset.le_max' _ o ho)
        simp [lock_auth_ordered.normal_rules, hmax, hcard, hle2]
    simp [lock_auth_ordered.test_auth, hnr]
  · intro a l
    simp [lock_auth_rw_lc_test]

/-- Witness for C3: with held orders `{1, 2}` and the spec-modelled
MultiReadOneWrite base holding one read lock: an order-3 request on a busy
lock is decided with cleared flags and granted; an order-2 request keeps the
original flags and falls back to the base policy, which denies it. -/
theorem C3_ordered_relaxation_witness :
    lock_auth_ordered.test_auth lock_auth_rw_lc_test
      ⟨⟨1, 0⟩, {1, 2}, 0⟩ ⟨none, true, 3, true, true, true⟩ = true ∧
    lock_auth_ordered.test_auth lock_auth_rw_lc_test
      ⟨⟨1, 0⟩, {1, 2}, 0⟩ ⟨none, false, 2, true, false, true⟩ = false := by
  constructor
  · rw [C3_ordered_relaxation.1 lock_auth_rw lock_auth_rw_lc_test ⟨⟨1, 0⟩, {1, 2}, 0⟩
      ⟨none, true, 3, true, true, true⟩ (by decide) rfl (by decide)]
    exact C3_ordered_relaxation.2.2 ⟨1, 0⟩ ⟨none, true, 3, true, true, true⟩
  · rw [C3_ordered_relaxation.2.1 lock_auth_rw lock_auth_rw_lc_test ⟨⟨1, 0⟩, {1, 2}, 0⟩
      ⟨none, false, 2, true, false, true⟩ (by decide) (Or.inr ⟨2, by decide, by decide⟩)]
    decide

/-- C8: in every state of an `rw_lock` reachable by any interleaving of
lock/unlock steps, there is at most one exclusive holder (`writer` holds
exactly when a writer identity is stored), the reader count equals the
number of outstanding shared grants, and while `writer` is set every
outstanding shared grant is attributed to the stored writer identity
(`the_writer`) — i.e. only writer-reads grants coexist with the writer. -/
theorem C8_rw_lock_reachable_invariant :
    ∀ t : rw_ghost, rw_reachable t →
      t.writer = t.the_writer.isSome ∧
      t.readers = t.read_holders.length ∧
      (t.writer = true → ∀ g ∈ t.read_holders, t.the_writer = some g) := by
  intro t h
  induction h with
  | init => simp [rw_ghost.init]
  | @step s t hr hs ih =>
    cases hs with
    | read_grant_normal a _s hw hww =>
      refine ⟨ih.1, by simpa using ih.2.1, ?_⟩
      intro hwt
      have hwt2 : s.writer = true := hwt
      rw [hw] at hwt2
      exact absurd hwt2 (by simp)
    | read_grant_writer a _s hw =>
      refine ⟨ih.1, by simpa using ih.2.1, ?_⟩
      intro hwt g hg
      have hg2 : g ∈ a :: s.read_holders := hg
      rcases List.mem_cons.mp hg2 with hga | hgs
      · subst hga; exact hw
      · exact ih.2.2 hwt g hgs
    | wait_inc _s => exact ih
    | wait_dec _s h2 => exact ih
    | writer_wait_begin _s h2 => exact ih
    | writer_wait_abort _s h2 => exact ih
    | write_grant a _s hq hw hrd =>
      refine ⟨rfl, ih.2.1, ?_⟩
      intro _ g hg
      have hlen : s.read_holders.length = 0 := by
        rw [← ih.2.1]; exact hrd
      rw [List.length_eq_zero] at hlen
      have hg2 : g ∈ s.read_holders := hg
      rw [hlen] at hg2
      exact absurd hg2 (by simp)
    | read_release a _s hmem =>
      refine ⟨ih.1, ?_, ?_⟩
      · show s.readers - 1 = (s.read_holders.erase a).length
        rw [List.length_erase_of_mem hmem, ih.2.1]
      · intro hwt g hg
        exact ih.2.2 hwt g (List.mem_of_mem_erase hg)
    | write_release a _s h2 =>
      refine ⟨rfl, ih.2.1, ?_⟩
      intro hwt
      exact absurd hwt (by simp)

/-- Witness for C8: a concrete reachable state — a writer queued, granted,
then taking a writer-reads shared grant — satisfies the invariant. -/
theorem C8_rw_lock_reachable_invariant_witness :
    rw_reachable ⟨1, 0, true, false, some 4, [4]⟩ ∧
    (∀ g ∈ [4], (⟨1, 0, true, false, some 4, [4]⟩ : rw_ghost).the_writer = some g) := by
  have h1 : rw_reachable rw_ghost.init := .init
  have h2 := h1.step (rw_step.writer_wait_begin rw_ghost.init rfl)
  have h3 := h2.step (rw_step.write_grant 4 _ rfl rfl rfl)
  have h4 := h3.step (rw_step.read_grant_writer 4 _ rfl)
  have h5 : rw_reachable ⟨1, 0, true, false, some 4, [4]⟩ := h4
  exact ⟨h5, (C8_rw_lock_reachable_invariant _ h5).2.2 rfl⟩

/-- C6: for a proxy construction that names a meta-lock: if the meta shared
grant fails the proxy is born empty with the whole world (both lock states
and the authorization) unchanged; if the meta grant succeeds but the
container acquisition fails, the already-acquired meta-lock is released and
again nothing is left held or registered; on success, last-copy destruction
(or `clear()`) releases the container lock first — the meta share is still
outstanding after that stage — then the meta-lock, restoring the world
exactly. -/
theorem C6_proxy_meta_rollback :
    (∀ (w : locker_world) (read block : Bool) (lk : locker) (w2 : locker_world),
      locker_init read block w = some (lk, w2) →
      lk.pointer = false →
      w2 = w) ∧
    (∀ (w : locker_world) (read block : Bool) (lk : locker) (w2 : locker_world),
      locker_init read block w = some (lk, w2) →
      lk.pointer = true →
      (w.locks.writer = false → w.locks.the_writer = none) →
      locker_destroy lk w2 = w ∧
      (locker_destroy_stage1 lk w2).multi = w2.multi ∧
      w2.multi.readers = w.multi.readers + 1) := by
  constructor
  · intro w read block lk w2 h hp
    rcases hm : rw_lock.lock rw_auth_policy w.multi w.auth true block true with ⟨om, m1, a1⟩
    rcases om with nm | _ | _
    · rcases hc : rw_lock.lock rw_auth_policy w.locks a1 read block false with ⟨oc, l2, a2⟩
      rcases oc with nc | _ | _
      · -- both granted: pointer is true, contradicting hp
        simp only [locker_init, hm, hc, Option.some.injEq, Prod.mk.injEq] at h
        rw [← h.1] at hp
        exact absurd hp (by simp)
      · -- container denied: meta share rolled back
        simp only [locker_init, hm, hc, rw_lock.unlock, Option.some.injEq, Prod.mk.injEq] at h
        have hm1 := rw_lock_read_grant_inv w.multi w.auth block true nm m1 a1 hm
        rcases hm1 with ⟨hm1s, -, lo, iu, hreg⟩
        have ha1 : a1 = w.auth := register_or_test_test_id _ _ _ _ _ hreg
        have hcd : (rw_lock.lock rw_auth_policy w.locks a1 read block false).1 = .denied := by
          rw [hc]
        have hcf := rw_lock_deny_frame w.locks a1 read block false hcd
        rw [hc] at hcf
        simp only [Prod.mk.injEq] at hcf
        rw [← h.2, hm1s, hcf.1, hcf.2, ha1]
        cases w
        simp
      · -- container would_block: construction did not complete
        simp only [locker_init, hm, hc] at h
        exact absurd h (by simp)
    · -- meta denied: nothing acquired, nothing released
      simp only [locker_init, hm, Option.some.injEq, Prod.mk.injEq] at h
      have hmd : (rw_lock.lock rw_auth_policy w.multi w.auth true block true).1 = .denied := by
        rw [hm]
      have hmf := rw_lock_deny_frame w.multi w.auth true block true hmd
      rw [hm] at hmf
      simp only [Prod.mk.injEq] at hmf
      rw [← h.2, hmf.1, hmf.2]
    · -- meta would_block: construction did not complete
      simp only [locker_init, hm] at h
      exact absurd h (by simp)
  · intro w read block lk w2 h hp hnw
    rcases hm : rw_lock.lock rw_auth_policy w.multi w.auth true block true with ⟨om, m1, a1⟩
    rcases om with nm | _ | _
    · rcases hc : rw_lock.lock rw_auth_policy w.locks a1 read block false with ⟨oc, l2, a2⟩
      rcases oc with nc | _ | _
      · -- both granted: the real case
        simp only [locker_init, hm, hc, Option.some.injEq, Prod.mk.injEq] at h
        have hmi := rw_lock_read_grant_inv w.multi w.auth block true nm m1 a1 hm
        rcases hmi with ⟨hm1s, -, lo, iu, hregm⟩
        have ha1 : a1 = w.auth := register_or_test_test_id _ _ _ _ _ hregm
        rcases h with ⟨hlk, hw2⟩
        rcases read with _ | _
        · -- container write grant
          have hci := rw_lock_write_grant_inv w.locks a1 block false nc l2 a2 hc
          rcases hci with ⟨hcw, hcww, hcr, hl2, lo2, iu2, hregc⟩
          have hrel : release_auth_opt rw_auth_policy a2 false = a1 :=
            register_or_test_release_id _ _ _ _ _ hregc
          have hnw2 : w.locks.the_writer = none := hnw hcw
          refine ⟨?_, ?_, ?_⟩
          · rw [← hlk, ← hw2]
            simp only [locker_destroy, locker_destroy_stage1, locker_destroy_stage2,
              rw_lock.unlock, if_true]
            rw [hl2, hrel, ha1, hm1s]
            cases w with
            | mk multi locks auth =>
              simp only [locker_world.mk.injEq]
              refine ⟨?_, ?_, rfl⟩
              · cases multi
                simp
              · cases locks
                simp_all
          · rw [← hlk, ← hw2]
            simp [locker_destroy_stage1, rw_lock.unlock]
          · rw [← hw2, hm1s]
        · -- container read grant
          have hci := rw_lock_read_grant_inv w.locks a1 block false nc l2 a2 hc
          rcases hci with ⟨hl2, -, lo2, iu2, hregc⟩
          have hrel : release_auth_opt rw_auth_policy a2 true = a1 :=
            register_or_test_release_id _ _ _ _ _ hregc
          refine ⟨?_, ?_, ?_⟩
          · rw [← hlk, ← hw2]
            simp only [locker_destroy, locker_destroy_stage1, locker_destroy_stage2,
              rw_lock.unlock, if_true]
            rw [hl2, hrel, ha1, hm1s]
            cases w with
            | mk multi locks auth =>
              simp only [locker_world.mk.injEq]
              refine ⟨?_, ?_, rfl⟩
              · cases multi
                simp
              · cases locks
                simp
          · rw [← hlk, ← hw2]
            simp [locker_destroy_stage1, rw_lock.unlock]
          · rw [← hw2, hm1s]
      · -- container denied: pointer is false, contradicting hp
        simp only [locker_init, hm, hc, rw_lock.unlock, Option.some.injEq, Prod.mk.injEq] at h
        rw [← h.1] at hp
        exact absurd hp (by simp [locker.empty])
      · simp only [locker_init, hm, hc] at h
        exact absurd h (by simp)
    · simp only [locker_init, hm, Option.some.injEq, Prod.mk.injEq] at h
      rw [← h.1] at hp
      exact absurd hp (by simp [locker.empty])
    · simp only [locker_init, hm] at h
      exact absurd h (by simp)

/-- Witness for C6: a concrete successful meta+container acquisition whose
destruction restores both locks and the authorization, and a concrete failed
acquisition (meta-lock locked out) that leaves the world untouched. -/
theorem C6_proxy_meta_rollback_witness :
    locker_destroy ⟨true, 1, true, true, true, true⟩
        ⟨⟨1, 0, false, false, none⟩, ⟨1, 0, false, false, none⟩, some (1, ⟨1, 0⟩)⟩ =
      ⟨rw_lock.init, rw_lock.init, some (1, ⟨0, 0⟩)⟩ ∧
    (⟨⟨0, 0, false, true, none⟩, rw_lock.init, some (1, ⟨1, 0⟩)⟩ : locker_world) =
      ⟨⟨0, 0, false, true, none⟩, rw_lock.init, some (1, ⟨1, 0⟩)⟩ :=
  ⟨(C6_proxy_meta_rollback.2 ⟨rw_lock.init, rw_lock.init, some (1, ⟨0, 0⟩)⟩ true true
      ⟨true, 1, true, true, true, true⟩
      ⟨⟨1, 0, false, false, none⟩, ⟨1, 0, false, false, none⟩, some (1, ⟨1, 0⟩)⟩
      (by decide) rfl (fun _ => rfl)).1,
   C6_proxy_meta_rollback.1 ⟨⟨0, 0, false, true, none⟩, rw_lock.init, some (1, ⟨1, 0⟩)⟩
      true true (locker.empty true)
      ⟨⟨0, 0, false, true, none⟩, rw_lock.init, some (1, ⟨1, 0⟩)⟩
      (by decide) rfl⟩
